import Mathlib

/-!
Verification of the Weather CLI (`src/main.py`).

Shallow embedding: JSON values are an inductive type, the HTTP world is an
explicit outcome parameter, console output is collected as a list of strings,
and exceptions are `Except Unit` (raising code) or explicit result
constructors. Machine integers are `Int` (Python integers are unbounded).
-/

namespace WeatherCli

/-- JSON values as produced by Python `json` decoding: `null` is Python
`None`, objects are association lists of string keys. -/
inductive Json where
  | null
  | b (v : Bool)
  | i (v : Int)
  | s (v : String)
  | arr (elems : List Json)
  | obj (fields : List (String × Json))

/-- Single-quote character (ASCII 39). -/
def sqChar : Char := Char.ofNat 39

/-- Double-quote character (ASCII 34). -/
def dqChar : Char := Char.ofNat 34

/-- Python `repr` of a string: quote choice and basic escapes, as CPython
renders strings nested inside containers. -/
def pyQuote (v : String) : String :=
  let hasSingle := v.data.contains sqChar
  let hasDouble := v.data.contains dqChar
  let q := if hasSingle && !hasDouble then dqChar else sqChar
  let esc := fun (c : Char) =>
    if c = Char.ofNat 92 then "\\\\"
    else if c = q then "\\" ++ String.mk [c]
    else if c = Char.ofNat 10 then "\\n"
    else if c = Char.ofNat 13 then "\\r"
    else if c = Char.ofNat 9 then "\\t"
    else String.mk [c]
  String.mk [q] ++ String.join (v.data.map esc) ++ String.mk [q]

mutual

/-- Python `str()` of a decoded JSON value, as used by f-string interpolation
in `main.py`: `None`/`True`/`False`, plain digits for ints, the bare string
for strings, `repr`-style rendering for lists and dicts. -/
def pyStr : Json → String
  | .null => "None"
  | .b true => "True"
  | .b false => "False"
  | .i v => toString v
  | .s v => v
  | .arr xs => "[" ++ pyStrElems xs ++ "]"
  | .obj kvs => "\x7b" ++ pyStrFields kvs ++ "\x7d"

/-- Python `repr()` of a decoded JSON value (strings get quoted). -/
def pyRepr : Json → String
  | .s v => pyQuote v
  | .null => "None"
  | .b true => "True"
  | .b false => "False"
  | .i v => toString v
  | .arr xs => "[" ++ pyStrElems xs ++ "]"
  | .obj kvs => "\x7b" ++ pyStrFields kvs ++ "\x7d"

/-- Comma-separated `repr`s of list elements. -/
def pyStrElems : List Json → String
  | [] => ""
  | [x] => pyRepr x
  | x :: xs => pyRepr x ++ ", " ++ pyStrElems xs

/-- Comma-separated `key: value` `repr`s of dict entries. -/
def pyStrFields : List (String × Json) → String
  | [] => ""
  | [(k, v)] => pyQuote k ++ ": " ++ pyRepr v
  | (k, v) :: kvs => pyQuote k ++ ": " ++ pyRepr v ++ ", " ++ pyStrFields kvs

end

/-- Python `str.title()`: a letter that follows a non-letter is uppercased,
a letter that follows a letter is lowercased. -/
def pyTitle (s : String) : String :=
  (s.data.foldl
    (fun (acc : String × Bool) c =>
      if c.isAlpha then (acc.1.push (if acc.2 then c.toLower else c.toUpper), true)
      else (acc.1.push c, false))
    ("", false)).1

/-- Python substring test `needle in hay`. -/
def strContains (hay needle : String) : Bool :=
  needle == "" || (hay.splitOn needle).length != 1

/-- Python truthiness of a decoded JSON value (`if not data`). -/
def jsonFalsy : Json → Bool
  | .null => true
  | .b v => !v
  | .i v => v == 0
  | .s v => v == ""
  | .arr xs => xs.isEmpty
  | .obj kvs => kvs.isEmpty

/-- Python `dict.get(k, d)`: the stored value when the key is present
(even if that value is `null`), the default when absent; raises
`AttributeError` (modelled as `.error`) when the receiver is not a dict. -/
def dictGet (j : Json) (k : String) (d : Json) : Except Unit Json :=
  match j with
  | .obj kvs => .ok ((kvs.lookup k).getD d)
  | _ => .error ()

/-- Python `x[0]` followed by `.get` on the element, as in
`data.get("weather", [{}])[0]`: succeeds only for a non-empty list whose
head is a dict-compatible value; every other receiver ends in an exception
(IndexError, KeyError, TypeError, or AttributeError on the element). -/
def index0 (j : Json) : Except Unit Json :=
  match j with
  | .arr (x :: _) => .ok x
  | _ => .error ()

/-- Python `.title()` attribute access: only strings have it. -/
def asStr (j : Json) : Except Unit String :=
  match j with
  | .s v => .ok v
  | _ => .error ()

/-- Smallest epoch second `datetime` accepts: 0001-01-01 00:00:00 UTC. -/
def minEpoch : Int := -62135596800

/-- Largest epoch second `datetime` accepts: 9999-12-31 23:59:59 UTC. -/
def maxEpoch : Int := 253402300799

/-- Epoch seconds representable by an aware `datetime` (year 1 to 9999);
`datetime.fromtimestamp` raises outside this range. -/
def inRange (e : Int) : Prop := minEpoch ≤ e ∧ e ≤ maxEpoch

instance (e : Int) : Decidable (inRange e) :=
  inferInstanceAs (Decidable (minEpoch ≤ e ∧ e ≤ maxEpoch))

/-- Gregorian date for a count of days since 1970-01-01 (proleptic
civil-from-days conversion, floor semantics as in CPython `datetime`). -/
def civilFromDays (z0 : Int) : Int × Int × Int :=
  let z := z0 + 719468
  let era := Int.fdiv z 146097
  let doe := z - era * 146097
  let yoe := Int.fdiv (doe - Int.fdiv doe 1460 + Int.fdiv doe 36524 - Int.fdiv doe 146096) 365
  let y := yoe + era * 400
  let doy := doe - (365 * yoe + Int.fdiv yoe 4 - Int.fdiv yoe 100)
  let mp := Int.fdiv (5 * doy + 2) 153
  let d := doy - Int.fdiv (153 * mp + 2) 5 + 1
  let m := mp + (if mp < 10 then 3 else -9)
  (y + (if m ≤ 2 then 1 else 0), m, d)

/-- Two-digit zero padding, as `%m`, `%d`, `%H`, `%M` produce. -/
def pad2 (n : Int) : String :=
  if n < 10 then "0" ++ toString n else toString n

/-- Four-digit zero padding for the year field `%Y`. -/
def pad4 (n : Int) : String :=
  if n < 10 then "000" ++ toString n
  else if n < 100 then "00" ++ toString n
  else if n < 1000 then "0" ++ toString n
  else toString n

/-- Assembles `"%Y-%m-%d %H:%M"` from a civil date and an hour/minute pair. -/
def ymdhm (c : Int × Int × Int) (hh mm : Int) : String :=
  pad4 c.1 ++ "-" ++ pad2 c.2.1 ++ "-" ++ pad2 c.2.2 ++ " " ++ pad2 hh ++ ":" ++ pad2 mm

/-- Embedding of `datetime.fromtimestamp(e, timezone.utc).strftime("%Y-%m-%d %H:%M")`:
CPython splits the timestamp with `divmod` (floor division and floor
remainder) into days, then hours, then minutes. -/
def epochYmdHM (e : Int) : String :=
  let days := Int.fdiv e 86400
  let sec := Int.fmod e 86400
  let hh := Int.fdiv sec 3600
  let mm := Int.fdiv (Int.fmod sec 3600) 60
  ymdhm (civilFromDays days) hh mm

/-- Rendering of the UNIX epoch instant `e`, interpreted in UTC, in the
format `"%Y-%m-%d %H:%M"`, written per the specification: the calendar date
of the day the instant falls in, then the hour of that day and the minute
of that hour, obtained by subtracting the completed days and hours. -/
def utcRenderSpec (e : Int) : String :=
  let days := Int.fdiv e 86400
  let hh := Int.fdiv (e - 86400 * days) 3600
  let mm := Int.fdiv (e - 3600 * Int.fdiv e 3600) 60
  ymdhm (civilFromDays days) hh mm

/-- Python `format_time(ts, tz)` applied to one decoded JSON value for the
timestamp and one for the offset: `None` gives the fixed placeholder, an
integer (or bool, an int subclass) pair inside `datetime`'s supported range
formats `ts + tz` in UTC, everything else raises (TypeError from `+`, or
ValueError/OverflowError from `fromtimestamp`). -/
def fmtTs (v : Int) (tz : Json) : Except Unit String :=
  match tz with
  | .i w => if inRange (v + w) then .ok (epochYmdHM (v + w)) else .error ()
  | .b w => if inRange (v + (if w then 1 else 0)) then .ok (epochYmdHM (v + (if w then 1 else 0))) else .error ()
  | _ => .error ()

/-- Embedding of `format_time` from `main.py` line 46: `if ts is None:
return "N/A"`, otherwise the strftime of `ts + tz_offset` in UTC. -/
def format_time (ts tz : Json) : Except Unit String :=
  match ts with
  | .null => .ok "N/A"
  | .i v => fmtTs v tz
  | .b v => fmtTs (if v then 1 else 0) tz
  | _ => .error ()

/-- Temperature suffix from `main.py` line 84: `"°C" if units == "metric"
else "°F" if units == "imperial" else "K"`. -/
def tempUnitOf (units : String) : String :=
  if units == "metric" then "°C" else if units == "imperial" then "°F" else "K"

/-- Wind-speed suffix from `main.py` line 96: `'m/s' if units != 'imperial'
else 'mph'`. -/
def windSuffixOf (units : String) : String :=
  if units != "imperial" then "m/s" else "mph"

/-- Output produced by one successful `pretty_render` call: the header
panel texts, the condition line with its chosen style, and the
label/value table rows in order (Temperature, Humidity, Wind Speed,
Sunrise, Sunset). -/
structure RenderOutput where
  headerTitle : String
  headerTime : String
  condition : String
  conditionStyle : String
  rows : List (String × String)
deriving DecidableEq

/-- Result of a `pretty_render` call: `nothing` is the early `return` on
falsy data (no output at all), `raised` is an uncaught Python exception
part-way through, `output` is a completed render. -/
inductive RenderResult where
  | nothing
  | raised
  | output (o : RenderOutput)
deriving DecidableEq

/-- Body of `pretty_render` after the falsy guard (`main.py` lines 56-101),
with every Python expression that can raise sequenced in source order
through `Except`. -/
def renderCore (data : Json) (units : String) : Except Unit RenderOutput := do
  let name ← dictGet data "name" (.s "Unknown")
  let sysinfo ← dictGet data "sys" (.obj [])
  let country ← dictGet sysinfo "country" (.s "")
  let warr ← dictGet data "weather" (.arr [.obj []])
  let w0 ← index0 warr
  let descV ← dictGet w0 "description" (.s "N/A")
  let descS ← asStr descV
  let weather_desc := pyTitle descS
  let mainObj ← dictGet data "main" (.obj [])
  let temp ← dictGet mainObj "temp" (.s "N/A")
  let feels ← dictGet mainObj "feels_like" (.s "N/A")
  let humidity ← dictGet mainObj "humidity" (.s "N/A")
  let wind ← dictGet data "wind" (.obj [])
  let wind_speed ← dictGet wind "speed" (.s "N/A")
  let tz_offset ← dictGet data "timezone" (.i 0)
  let dt ← dictGet data "dt" (.i 0)
  let sunrise ← dictGet sysinfo "sunrise" .null
  let sunset ← dictGet sysinfo "sunset" .null
  let headerTime ← format_time dt tz_offset
  let condition_style :=
    if strContains weather_desc.toLower "cloud" then "bold magenta"
    else if strContains weather_desc.toLower "clear" then "bold yellow"
    else "bold cyan"
  let temp_unit := tempUnitOf units
  let sunriseS ← format_time sunrise tz_offset
  let sunsetS ← format_time sunset tz_offset
  return { headerTitle := " Weather — " ++ pyStr name ++ ", " ++ pyStr country ++ " "
           headerTime := " Local time (approx): " ++ headerTime ++ " "
           condition := weather_desc
           conditionStyle := condition_style
           rows := [("Temperature", pyStr temp ++ " " ++ temp_unit ++ " (Feels like " ++ pyStr feels ++ temp_unit ++ ")"),
                    ("Humidity", pyStr humidity ++ "%"),
                    ("Wind Speed", pyStr wind_speed ++ " " ++ windSuffixOf units),
                    ("Sunrise", sunriseS),
                    ("Sunset", sunsetS)] }

/-- Embedding of `pretty_render(data, units)`: falsy data returns
immediately printing nothing, otherwise the body runs and either raises
or completes with the rendered output. -/
def pretty_render (data : Json) (units : String) : RenderResult :=
  if jsonFalsy data then .nothing
  else
    match renderCore data units with
    | .ok o => .output o
    | .error _ => .raised

/-- One HTTP GET as issued by `requests.get(BASE_URL, params=params,
timeout=10)`. -/
structure HttpRequest where
  url : String
  params : List (String × String)
  timeoutSec : Nat
deriving DecidableEq

/-- Reply of the external world to the single GET: either a transport-level
failure (`requests.exceptions.RequestException`: timeout, connection error)
carrying `str(e)`, or a final HTTP response with its status code and its
body's JSON decode (`none` when `resp.json()` raises). -/
inductive HttpOutcome where
  | transportError (msg : String)
  | response (status : Nat) (body : Option Json)

/-- How `fetch_current_weather` ends: `sys.exit(1)` on a missing key,
`return None` after a printed error, a returned decoded body, or an
uncaught exception (2xx whose body fails to decode, raised at line 44
outside the `try`). -/
inductive FetchResult where
  | fatalExit (code : Nat)
  | returnedNone
  | returned (body : Json)
  | uncaughtException

/-- Observable effects of one `fetch_current_weather` call: the GETs
issued in order, the console messages printed, and how the call ended. -/
structure FetchEffects where
  requests : List HttpRequest
  printed : List String
  result : FetchResult

/-- The fixed endpoint `BASE_URL` from `main.py` line 20. -/
def BASE_URL : String := "https://api.openweathermap.org/data/2.5/weather"

/-- Python truthiness of the module-level `API_KEY` (a missing environment
variable is `None`; an empty string is also falsy). -/
def truthyKey : Option String → Bool
  | none => false
  | some s => s != ""

/-- Statuses for which `Response.raise_for_status` raises `HTTPError`:
client errors (4xx) and server errors (5xx) only. -/
def raisesForStatus (status : Nat) : Bool :=
  400 ≤ status && status < 600

/-- Error text extracted at line 35: `resp.json().get("message", "Unknown
HTTP error")`, with every failure (body not JSON, body not a dict) caught
and defaulted by the inner `except Exception`. -/
def httpErrText (body : Option Json) : String :=
  match body with
  | some (.obj kvs) => pyStr ((kvs.lookup "message").getD (.s "Unknown HTTP error"))
  | _ => "Unknown HTTP error"

/-- Embedding of `fetch_current_weather(city, units)` with the effective
`API_KEY` and the world's reply as explicit parameters. -/
def fetch_current_weather (apiKey : Option String) (city units : String)
    (outcome : HttpOutcome) : FetchEffects :=
  if !truthyKey apiKey then
    { requests := []
      printed := ["[bold red]ERROR:[/bold red] OPENWEATHER_API_KEY not set in .env"]
      result := .fatalExit 1 }
  else
    let req : HttpRequest :=
      { url := BASE_URL
        params := [("q", city), ("appid", apiKey.getD ""), ("units", units)]
        timeoutSec := 10 }
    match outcome with
    | .transportError e =>
      { requests := [req]
        printed := ["[bold red]Network error:[/bold red] " ++ e]
        result := .returnedNone }
    | .response status body =>
      if raisesForStatus status then
        { requests := [req]
          printed := ["[bold red]API error:[/bold red] " ++ httpErrText body]
          result := .returnedNone }
      else
        match body with
        | some j => { requests := [req], printed := [], result := .returned j }
        | none => { requests := [req], printed := [], result := .uncaughtException }

/-- Argparse handling of the units flag: absent means the default `"metric"`,
a value outside the `choices` list is rejected (argparse exits with
status 2). -/
def parseUnits : Option String → Option String
  | none => some "metric"
  | some u => if u = "metric" ∨ u = "imperial" ∨ u = "standard" then some u else none

/-- Observable effects of one whole process run: GETs issued, console
messages, the rendered output if any, and the process exit status. -/
structure MainEffects where
  requests : List HttpRequest
  printed : List String
  rendered : Option RenderOutput
  exitCode : Nat
deriving DecidableEq

/-- Embedding of `main()`: argparse (empty city list or bad `--units`
exits 2), the city words joined with single spaces, the `-k` override of
`API_KEY` (only when truthy), the fetch, and the `if data:` guard before
`pretty_render`. An uncaught exception makes the interpreter exit 1. -/
def main (envKey flagKey : Option String) (cityWords : List String)
    (unitsArg : Option String) (outcome : HttpOutcome) : MainEffects :=
  if cityWords.isEmpty then { requests := [], printed := [], rendered := none, exitCode := 2 }
  else
    match parseUnits unitsArg with
    | none => { requests := [], printed := [], rendered := none, exitCode := 2 }
    | some units =>
      let city := String.intercalate " " cityWords
      let key := if truthyKey flagKey then flagKey else envKey
      let f := fetch_current_weather key city units outcome
      match f.result with
      | .fatalExit c => { requests := f.requests, printed := f.printed, rendered := none, exitCode := c }
      | .uncaughtException => { requests := f.requests, printed := f.printed, rendered := none, exitCode := 1 }
      | .returnedNone => { requests := f.requests, printed := f.printed, rendered := none, exitCode := 0 }
      | .returned data =>
        if jsonFalsy data then { requests := f.requests, printed := f.printed, rendered := none, exitCode := 0 }
        else
          match pretty_render data units with
          | .output o => { requests := f.requests, printed := f.printed, rendered := some o, exitCode := 0 }
          | .raised => { requests := f.requests, printed := f.printed, rendered := none, exitCode := 1 }
          | .nothing => { requests := f.requests, printed := f.printed, rendered := none, exitCode := 0 }

/-- Association-list entry for an optional JSON field: present fields
contribute one key, absent fields contribute nothing. -/
def optField (k : String) (v : Option Json) : List (String × Json) :=
  match v with
  | none => []
  | some x => [(k, x)]

/-- The timestamp JSON value stored for an optional integer field. -/
def jsonOfOptTs : Option Int → Json
  | none => .null
  | some v => .i v

/-- Response body with every field independently present or absent and, when
present, of the type the API documents: string description, integer
timestamps and offset, arbitrary JSON for the merely-displayed values. -/
def mkBody (name country : Option Json) (desc : Option String)
    (temp feels humidity speed : Option Json) (tzo dtv sr ss : Option Int) : Json :=
  .obj (optField "name" name
    ++ [("sys", .obj (optField "country" country
          ++ optField "sunrise" (sr.map .i) ++ optField "sunset" (ss.map .i)))]
    ++ [("weather", .arr [.obj (optField "description" (desc.map .s))])]
    ++ [("main", .obj (optField "temp" temp ++ optField "feels_like" feels
          ++ optField "humidity" humidity))]
    ++ [("wind", .obj (optField "speed" speed))]
    ++ optField "timezone" (tzo.map .i)
    ++ optField "dt" (dtv.map .i))

/-- Sunrise/sunset cell text for an optional timestamp and the body's
offset: the placeholder when absent, the formatted local time otherwise. -/
def fmtOptTs (o tzo : Option Int) : String :=
  match o with
  | none => "N/A"
  | some v => epochYmdHM (v + tzo.getD 0)

/-- Render output `pretty_render` produces on `mkBody`: every absent field
replaced by its placeholder, every present field displayed. -/
def mkOutput (name country : Option Json) (desc : Option String)
    (temp feels humidity speed : Option Json) (tzo dtv sr ss : Option Int)
    (units : String) : RenderOutput :=
  { headerTitle := " Weather — " ++ pyStr (name.getD (.s "Unknown")) ++ ", "
      ++ pyStr (country.getD (.s "")) ++ " "
    headerTime := " Local time (approx): " ++ epochYmdHM (dtv.getD 0 + tzo.getD 0) ++ " "
    condition := pyTitle (desc.getD "N/A")
    conditionStyle :=
      if strContains (pyTitle (desc.getD "N/A")).toLower "cloud" then "bold magenta"
      else if strContains (pyTitle (desc.getD "N/A")).toLower "clear" then "bold yellow"
      else "bold cyan"
    rows := [("Temperature", pyStr (temp.getD (.s "N/A")) ++ " " ++ tempUnitOf units
                ++ " (Feels like " ++ pyStr (feels.getD (.s "N/A")) ++ tempUnitOf units ++ ")"),
             ("Humidity", pyStr (humidity.getD (.s "N/A")) ++ "%"),
             ("Wind Speed", pyStr (speed.getD (.s "N/A")) ++ " " ++ windSuffixOf units),
             ("Sunrise", fmtOptTs sr tzo),
             ("Sunset", fmtOptTs ss tzo)] }

lemma bindOk {α β : Type} (v : α) (f : α → Except Unit β) :
    (Bind.bind (Except.ok v) f : Except Unit β) = f v := rfl

lemma pureOk {α : Type} (v : α) : (Pure.pure v : Except Unit α) = Except.ok v := rfl

lemma dictGet_mkBody_name (n c : Option Json) (d : Option String) (t f h w : Option Json)
    (tzo dtv sr ss : Option Int) :
    dictGet (mkBody n c d t f h w tzo dtv sr ss) "name" (.s "Unknown")
      = .ok (n.getD (.s "Unknown")) := by
  cases n <;> cases tzo <;> cases dtv <;> rfl

lemma dictGet_mkBody_sys (n c : Option Json) (d : Option String) (t f h w : Option Json)
    (tzo dtv sr ss : Option Int) :
    dictGet (mkBody n c d t f h w tzo dtv sr ss) "sys" (.obj [])
      = .ok (.obj (optField "country" c
          ++ optField "sunrise" (sr.map .i) ++ optField "sunset" (ss.map .i))) := by
  cases n <;> rfl

lemma dictGet_mkBody_weather (n c : Option Json) (d : Option String) (t f h w : Option Json)
    (tzo dtv sr ss : Option Int) :
    dictGet (mkBody n c d t f h w tzo dtv sr ss) "weather" (.arr [.obj []])
      = .ok (.arr [.obj (optField "description" (d.map .s))]) := by
  cases n <;> rfl

lemma dictGet_mkBody_main (n c : Option Json) (d : Option String) (t f h w : Option Json)
    (tzo dtv sr ss : Option Int) :
    dictGet (mkBody n c d t f h w tzo dtv sr ss) "main" (.obj [])
      = .ok (.obj (optField "temp" t ++ optField "feels_like" f ++ optField "humidity" h)) := by
  cases n <;> rfl

lemma dictGet_mkBody_wind (n c : Option Json) (d : Option String) (t f h w : Option Json)
    (tzo dtv sr ss : Option Int) :
    dictGet (mkBody n c d t f h w tzo dtv sr ss) "wind" (.obj [])
      = .ok (.obj (optField "speed" w)) := by
  cases n <;> rfl

lemma dictGet_mkBody_timezone (n c : Option Json) (d : Option String) (t f h w : Option Json)
    (tzo dtv sr ss : Option Int) :
    dictGet (mkBody n c d t f h w tzo dtv sr ss) "timezone" (.i 0)
      = .ok (.i (tzo.getD 0)) := by
  cases n <;> cases tzo <;> cases dtv <;> rfl

lemma dictGet_mkBody_dt (n c : Option Json) (d : Option String) (t f h w : Option Json)
    (tzo dtv sr ss : Option Int) :
    dictGet (mkBody n c d t f h w tzo dtv sr ss) "dt" (.i 0)
      = .ok (.i (dtv.getD 0)) := by
  cases n <;> cases tzo <;> cases dtv <;> rfl

lemma dictGet_sys_country (c : Option Json) (sr ss : Option Int) :
    dictGet (.obj (optField "country" c
        ++ optField "sunrise" (sr.map .i) ++ optField "sunset" (ss.map .i))) "country" (.s "")
      = .ok (c.getD (.s "")) := by
  cases c <;> cases sr <;> cases ss <;> rfl

lemma dictGet_sys_sunrise (c : Option Json) (sr ss : Option Int) :
    dictGet (.obj (optField "country" c
        ++ optField "sunrise" (sr.map .i) ++ optField "sunset" (ss.map .i))) "sunrise" .null
      = .ok (jsonOfOptTs sr) := by
  cases c <;> cases sr <;> cases ss <;> rfl

lemma dictGet_sys_sunset (c : Option Json) (sr ss : Option Int) :
    dictGet (.obj (optField "country" c
        ++ optField "sunrise" (sr.map .i) ++ optField "sunset" (ss.map .i))) "sunset" .null
      = .ok (jsonOfOptTs ss) := by
  cases c <;> cases sr <;> cases ss <;> rfl

lemma dictGet_weather_desc (d : Option String) :
    dictGet (.obj (optField "description" (d.map .s))) "description" (.s "N/A")
      = .ok (.s (d.getD "N/A")) := by
  cases d <;> rfl

lemma dictGet_main_temp (t f h : Option Json) :
    dictGet (.obj (optField "temp" t ++ optField "feels_like" f ++ optField "humidity" h))
        "temp" (.s "N/A") = .ok (t.getD (.s "N/A")) := by
  cases t <;> cases f <;> cases h <;> rfl

lemma dictGet_main_feels (t f h : Option Json) :
    dictGet (.obj (optField "temp" t ++ optField "feels_like" f ++ optField "humidity" h))
        "feels_like" (.s "N/A") = .ok (f.getD (.s "N/A")) := by
  cases t <;> cases f <;> cases h <;> rfl

lemma dictGet_main_humidity (t f h : Option Json) :
    dictGet (.obj (optField "temp" t ++ optField "feels_like" f ++ optField "humidity" h))
        "humidity" (.s "N/A") = .ok (h.getD (.s "N/A")) := by
  cases t <;> cases f <;> cases h <;> rfl

lemma dictGet_wind_speed (w : Option Json) :
    dictGet (.obj (optField "speed" w)) "speed" (.s "N/A") = .ok (w.getD (.s "N/A")) := by
  cases w <;> rfl

lemma mkBody_not_falsy (n c : Option Json) (d : Option String) (t f h w : Option Json)
    (tzo dtv sr ss : Option Int) :
    jsonFalsy (mkBody n c d t f h w tzo dtv sr ss) = false := by
  cases n <;> rfl

lemma format_time_int (a b : Int) (hab : inRange (a + b)) :
    format_time (.i a) (.i b) = .ok (epochYmdHM (a + b)) := by
  simp [format_time, fmtTs, if_pos hab]

lemma format_time_optTs (o tzo : Option Int)
    (hr : ∀ v, o = some v → inRange (v + tzo.getD 0)) :
    format_time (jsonOfOptTs o) (.i (tzo.getD 0)) = .ok (fmtOptTs o tzo) := by
  cases o with
  | none => rfl
  | some v => exact format_time_int v (tzo.getD 0) (hr v rfl)

lemma renderCore_mkBody (n c : Option Json) (d : Option String) (t f h w : Option Json)
    (tzo dtv sr ss : Option Int) (units : String)
    (hdt : inRange (dtv.getD 0 + tzo.getD 0))
    (hsr : ∀ v, sr = some v → inRange (v + tzo.getD 0))
    (hss : ∀ v, ss = some v → inRange (v + tzo.getD 0)) :
    renderCore (mkBody n c d t f h w tzo dtv sr ss) units
      = .ok (mkOutput n c d t f h w tzo dtv sr ss units) := by
  have hdtF := format_time_int (dtv.getD 0) (tzo.getD 0) hdt
  have hsrF := format_time_optTs sr tzo hsr
  have hssF := format_time_optTs ss tzo hss
  simp only [renderCore, dictGet_mkBody_name, dictGet_mkBody_sys, dictGet_mkBody_weather,
    dictGet_mkBody_main, dictGet_mkBody_wind, dictGet_mkBody_timezone, dictGet_mkBody_dt,
    dictGet_sys_country, dictGet_sys_sunrise, dictGet_sys_sunset, dictGet_weather_desc,
    dictGet_main_temp, dictGet_main_feels, dictGet_main_humidity, dictGet_wind_speed,
    index0, asStr, bindOk, pureOk, hdtF, hsrF, hssF]
  rfl

lemma pretty_render_mkBody (n c : Option Json) (d : Option String) (t f h w : Option Json)
    (tzo dtv sr ss : Option Int) (units : String)
    (hdt : inRange (dtv.getD 0 + tzo.getD 0))
    (hsr : ∀ v, sr = some v → inRange (v + tzo.getD 0))
    (hss : ∀ v, ss = some v → inRange (v + tzo.getD 0)) :
    pretty_render (mkBody n c d t f h w tzo dtv sr ss) units
      = .output (mkOutput n c d t f h w tzo dtv sr ss units) := by
  simp only [pretty_render, mkBody_not_falsy, Bool.false_eq_true, if_false,
    renderCore_mkBody n c d t f h w tzo dtv sr ss units hdt hsr hss]

lemma string_append_left_cancel {a b c : String} (h : a ++ b = a ++ c) : b = c := by
  obtain ⟨la⟩ := a; obtain ⟨lb⟩ := b; obtain ⟨lc⟩ := c
  have h2 : la ++ lb = la ++ lc := congrArg String.data h
  exact congrArg String.mk (List.append_cancel_left h2)

lemma epochYmdHM_eq_utcRenderSpec (e : Int) : epochYmdHM e = utcRenderSpec e := by
  have h2 : Int.fmod (Int.fmod e 86400) 3600 = e - 3600 * Int.fdiv e 3600 := by
    rw [Int.fmod_eq_emod _ (by decide), Int.fmod_eq_emod _ (by decide),
      Int.fdiv_eq_ediv _ (by decide)]
    omega
  have h1 : Int.fmod e 86400 = e - 86400 * Int.fdiv e 86400 := by
    rw [Int.fmod_eq_emod _ (by decide), Int.fdiv_eq_ediv _ (by decide)]
    omega
  simp only [epochYmdHM, utcRenderSpec]
  rw [h2, h1]

/-- Header time line of a render result, when one was produced. -/
def headerTimeOf : RenderResult → Option String
  | .output o => some o.headerTime
  | _ => none

/-- The one request `fetch_current_weather` builds: the fixed endpoint, the
query parameters of line 29, the 10-second timeout of line 31. -/
def baseReq (k city units : String) : HttpRequest :=
  { url := BASE_URL, params := [("q", city), ("appid", k), ("units", units)], timeoutSec := 10 }

lemma keyIf (k : String) (hk : k ≠ "") :
    (if truthyKey (some k) = true then some k else (none : Option String)) = some k := by
  simp [truthyKey, hk]

lemma fetch_transport (k city units e : String) (hk : k ≠ "") :
    fetch_current_weather (some k) city units (.transportError e) =
      { requests := [baseReq k city units],
        printed := ["[bold red]Network error:[/bold red] " ++ e],
        result := .returnedNone } := by
  simp [fetch_current_weather, truthyKey, hk, baseReq]

lemma fetch_httpError (k city units : String) (hk : k ≠ "") (status : Nat) (body : Option Json)
    (h1 : 400 ≤ status) (h2 : status < 600) :
    fetch_current_weather (some k) city units (.response status body) =
      { requests := [baseReq k city units],
        printed := ["[bold red]API error:[/bold red] " ++ httpErrText body],
        result := .returnedNone } := by
  simp [fetch_current_weather, truthyKey, hk, raisesForStatus, h1, h2, baseReq]

lemma fetch_success (k city units : String) (hk : k ≠ "") (status : Nat) (j : Json)
    (hs : raisesForStatus status = false) :
    fetch_current_weather (some k) city units (.response status (some j)) =
      { requests := [baseReq k city units], printed := [], result := .returned j } := by
  simp [fetch_current_weather, truthyKey, hk, hs, baseReq]

lemma main_returnedNone (k : String) (hk : k ≠ "") (wd : String) (ws : List String)
    (uArg : Option String) (u : String) (hpu : parseUnits uArg = some u) (outcome : HttpOutcome)
    (hres : (fetch_current_weather (some k) (String.intercalate " " (wd :: ws)) u outcome).result
      = .returnedNone) :
    main none (some k) (wd :: ws) uArg outcome =
      { requests := (fetch_current_weather (some k) (String.intercalate " " (wd :: ws)) u outcome).requests,
        printed := (fetch_current_weather (some k) (String.intercalate " " (wd :: ws)) u outcome).printed,
        rendered := none, exitCode := 0 } := by
  simp only [main, List.isEmpty_cons, Bool.false_eq_true, if_false, hpu, keyIf k hk]
  rw [hres]

/-- C1: with `OPENWEATHER_API_KEY` absent from the environment and no
override flag (so the effective key is `none`), for every city, unit mode
and outside world, `fetch_current_weather` prints the missing-key error,
issues no HTTP request, and terminates the process via `sys.exit(1)`. -/
theorem spec_c1 (city units : String) (outcome : HttpOutcome) :
    fetch_current_weather none city units outcome =
      { requests := []
        printed := ["[bold red]ERROR:[/bold red] OPENWEATHER_API_KEY not set in .env"]
        result := .fatalExit 1 } := rfl

/-- C10: falsy data (`None` or the empty JSON object) makes `pretty_render`
return immediately, printing nothing at all. -/
theorem spec_c10 (units : String) :
    pretty_render Json.null units = RenderResult.nothing ∧
    pretty_render (Json.obj []) units = RenderResult.nothing := ⟨rfl, rfl⟩

/-- C8 counterexample: `format_time` on the timestamp one second past
9999-12-31 23:59:59 UTC raises (`datetime.fromtimestamp` rejects year
10000), so it does not equal any rendered string, contradicting the claim
for every non-None timestamp. -/
theorem spec_c8_cex :
    format_time (Json.i 253402300800) (Json.i 0) = Except.error () ∧
    ∀ s : String, format_time (Json.i 253402300800) (Json.i 0) ≠ Except.ok s := by
  refine ⟨rfl, fun s h => ?_⟩
  rw [show format_time (Json.i 253402300800) (Json.i 0) = Except.error () from rfl] at h
  exact Except.noConfusion h

/-- C8 (amended): for every non-None integer timestamp and offset whose sum
lies in `datetime`'s supported range (years 1 to 9999), `format_time`
returns exactly the `"%Y-%m-%d %H:%M"` rendering of the epoch instant
`ts + tz` interpreted in UTC. -/
theorem spec_c8 (ts tz : Int) (hr : inRange (ts + tz)) :
    format_time (Json.i ts) (Json.i tz) = Except.ok (utcRenderSpec (ts + tz)) := by
  rw [format_time_int ts tz hr, epochYmdHM_eq_utcRenderSpec]

/-- C8 witness: the amended theorem applied at the concrete instant
2023-11-14 22:13:20 UTC with offset +05:30. -/
theorem spec_c8_witness :
    inRange ((1700000000 : Int) + 19800) ∧
    format_time (Json.i 1700000000) (Json.i 19800)
      = Except.ok (utcRenderSpec (1700000000 + 19800)) :=
  ⟨by decide, spec_c8 1700000000 19800 (by decide)⟩

lemma pyStr_s (v : String) : pyStr (Json.s v) = v := rfl

lemma fetch_requests (k city units : String) (hk : k ≠ "") (outcome : HttpOutcome) :
    (fetch_current_weather (some k) city units outcome).requests = [baseReq k city units] := by
  cases outcome with
  | transportError e => rw [fetch_transport k city units e hk]
  | response status body =>
    have hb : (k != "") = true := bne_iff_ne.mpr hk
    simp only [fetch_current_weather, truthyKey, hb, Bool.not_true, Bool.false_eq_true, if_false]
    split
    · rfl
    · cases body <;> rfl

lemma main_requests (k : String) (hk : k ≠ "") (wd : String) (ws : List String)
    (uArg : Option String) (u : String) (outcome : HttpOutcome)
    (hpu : parseUnits uArg = some u) :
    (main none (some k) (wd :: ws) uArg outcome).requests
      = [baseReq k (String.intercalate " " (wd :: ws)) u] := by
  have hreq := fetch_requests k (String.intercalate " " (wd :: ws)) u hk outcome
  simp only [main, List.isEmpty_cons, Bool.false_eq_true, if_false, hpu, keyIf k hk]
  split
  · exact hreq
  · exact hreq
  · exact hreq
  · split
    · exact hreq
    · split <;> exact hreq

/-- C2 counterexample: an HTTP 304 response is not 2xx, yet
`raise_for_status` does not raise for it, so `fetch_current_weather` prints
no error and returns the decoded body instead of `None`. -/
theorem spec_c2_cex :
    (fetch_current_weather (some "k") "Paris" "metric"
      (.response 304 (some (Json.obj [])))).printed = [] ∧
    (fetch_current_weather (some "k") "Paris" "metric"
      (.response 304 (some (Json.obj [])))).result = .returned (Json.obj []) := ⟨rfl, rfl⟩

/-- C2 (amended): for every fetch failure that `requests` reports — a 4xx
or 5xx response, or a transport error — `fetch_current_weather` prints one
categorized message (API error vs. network error) and returns `None`, and
`main` renders nothing and exits 0. -/
theorem spec_c2 (k : String) (hk : k ≠ "") (city units : String) (status : Nat)
    (body : Option Json) (e : String) :
    (400 ≤ status → status < 600 →
      (fetch_current_weather (some k) city units (.response status body)).result = .returnedNone ∧
      ∃ m, (fetch_current_weather (some k) city units (.response status body)).printed
        = ["[bold red]API error:[/bold red] " ++ m]) ∧
    ((fetch_current_weather (some k) city units (.transportError e)).result = .returnedNone ∧
      (fetch_current_weather (some k) city units (.transportError e)).printed
        = ["[bold red]Network error:[/bold red] " ++ e]) ∧
    (∀ (wd : String) (ws : List String) (uArg : Option String) (u : String),
      parseUnits uArg = some u →
      ((main none (some k) (wd :: ws) uArg (.transportError e)).rendered = none ∧
        (main none (some k) (wd :: ws) uArg (.transportError e)).exitCode = 0) ∧
      (400 ≤ status → status < 600 →
        (main none (some k) (wd :: ws) uArg (.response status body)).rendered = none ∧
        (main none (some k) (wd :: ws) uArg (.response status body)).exitCode = 0)) := by
  refine ⟨fun h1 h2 => ?_, ?_, fun wd ws uArg u hpu => ⟨?_, fun h1 h2 => ?_⟩⟩
  · rw [fetch_httpError k city units hk status body h1 h2]
    exact ⟨rfl, httpErrText body, rfl⟩
  · rw [fetch_transport k city units e hk]
    exact ⟨rfl, rfl⟩
  · rw [main_returnedNone k hk wd ws uArg u hpu _ (by rw [fetch_transport _ _ _ _ hk])]
    exact ⟨rfl, rfl⟩
  · rw [main_returnedNone k hk wd ws uArg u hpu _
      (by rw [fetch_httpError _ _ _ hk _ _ h1 h2])]
    exact ⟨rfl, rfl⟩

/-- C2 witness: a 404 response and a timeout, both with a present key. -/
theorem spec_c2_witness :
    (fetch_current_weather (some "x") "Paris" "metric" (.response 404 none)).result
      = FetchResult.returnedNone ∧
    (fetch_current_weather (some "x") "Paris" "metric" (.transportError "timed out")).printed
      = ["[bold red]Network error:[/bold red] timed out"] ∧
    (main none (some "x") ["Paris"] none (.transportError "timed out")).exitCode = 0 :=
  ⟨((spec_c2 "x" (by decide) "Paris" "metric" 404 none "timed out").1 (by decide) (by decide)).1,
   ((spec_c2 "x" (by decide) "Paris" "metric" 404 none "timed out").2.1).2,
   (((spec_c2 "x" (by decide) "Paris" "metric" 404 none "timed out").2.2 "Paris" [] none
      "metric" rfl).1).2⟩

/-- C4 counterexample: an HTTP 303 response is not 2xx and its body has a
"message" field, yet nothing is printed, because `raise_for_status` only
raises for 4xx and 5xx. -/
theorem spec_c4_cex :
    (fetch_current_weather (some "k") "Lyon" "metric"
      (.response 303 (some (Json.obj [("message", Json.s "see other")])))).printed = [] := rfl

/-- C4 (amended): for every 4xx or 5xx response, the displayed API error is
the body's "message" value when the body is a JSON object carrying one, and
the fixed default when the body is unparseable or has no "message"; no
table is rendered. -/
theorem spec_c4 (k : String) (hk : k ≠ "") (city units : String) (status : Nat)
    (h1 : 400 ≤ status) (h2 : status < 600) :
    (∀ (kvs : List (String × Json)) (m : String), kvs.lookup "message" = some (Json.s m) →
      (fetch_current_weather (some k) city units (.response status (some (Json.obj kvs)))).printed
        = ["[bold red]API error:[/bold red] " ++ m]) ∧
    (∀ kvs : List (String × Json), kvs.lookup "message" = none →
      (fetch_current_weather (some k) city units (.response status (some (Json.obj kvs)))).printed
        = ["[bold red]API error:[/bold red] Unknown HTTP error"]) ∧
    ((fetch_current_weather (some k) city units (.response status none)).printed
      = ["[bold red]API error:[/bold red] Unknown HTTP error"]) ∧
    (∀ (wd : String) (ws : List String) (uArg : Option String) (u : String) (body : Option Json),
      parseUnits uArg = some u →
      (main none (some k) (wd :: ws) uArg (.response status body)).rendered = none) := by
  refine ⟨fun kvs m hm => ?_, fun kvs hm => ?_, ?_, fun wd ws uArg u body hpu => ?_⟩
  · rw [fetch_httpError k city units hk status _ h1 h2]
    simp [httpErrText, hm, pyStr_s]
  · rw [fetch_httpError k city units hk status _ h1 h2]
    simp [httpErrText, hm, pyStr_s]
  · rw [fetch_httpError k city units hk status _ h1 h2]
    rfl
  · rw [main_returnedNone k hk wd ws uArg u hpu _
      (by rw [fetch_httpError _ _ _ hk _ _ h1 h2])]

/-- C4 witness: the spec's own example, HTTP 404 with body
`{"message": "city not found"}`. -/
theorem spec_c4_witness :
    (fetch_current_weather (some "x") "Delhi" "metric"
      (.response 404 (some (Json.obj [("message", Json.s "city not found")])))).printed
      = ["[bold red]API error:[/bold red] city not found"] ∧
    (main none (some "x") ["Delhi"] none
      (.response 404 (some (Json.obj [("message", Json.s "city not found")])))).rendered = none :=
  ⟨(spec_c4 "x" (by decide) "Delhi" "metric" 404 (by decide) (by decide)).1
      [("message", Json.s "city not found")] "city not found" rfl,
   (spec_c4 "x" (by decide) "Delhi" "metric" 404 (by decide) (by decide)).2.2.2 "Delhi" [] none
      "metric" (some (Json.obj [("message", Json.s "city not found")])) rfl⟩

/-- C9: with a truthy key, exactly one GET is issued to the fixed endpoint
for every outcome (no retries), with parameters exactly q (the city words
joined by single spaces), appid (the effective key) and units; the units
argument is restricted to the three argparse choices and defaults to
metric; the timeout is 10 seconds. -/
theorem spec_c9 (k : String) (hk : k ≠ "") :
    (∀ (city units : String) (outcome : HttpOutcome),
      (fetch_current_weather (some k) city units outcome).requests
        = [{ url := BASE_URL, params := [("q", city), ("appid", k), ("units", units)],
             timeoutSec := 10 }]) ∧
    parseUnits none = some "metric" ∧
    (∀ u : String, parseUnits (some u) = some u ↔ (u = "metric" ∨ u = "imperial" ∨ u = "standard")) ∧
    (∀ (wd : String) (ws : List String) (uArg : Option String) (u : String) (outcome : HttpOutcome),
      parseUnits uArg = some u →
      (main none (some k) (wd :: ws) uArg outcome).requests
        = [{ url := BASE_URL,
             params := [("q", String.intercalate " " (wd :: ws)), ("appid", k), ("units", u)],
             timeoutSec := 10 }]) := by
  refine ⟨fun city units outcome => fetch_requests k city units hk outcome, rfl, fun u => ⟨?_, ?_⟩,
    fun wd ws uArg u outcome hpu => main_requests k hk wd ws uArg u outcome hpu⟩
  · intro hp
    by_contra hval
    simp [parseUnits, hval] at hp
  · intro hval
    simp [parseUnits, hval]

/-- C9 witness: a two-word city with the imperial flag over a timeout. -/
theorem spec_c9_witness :
    (fetch_current_weather (some "x") "New York" "imperial" (.transportError "boom")).requests
      = [{ url := BASE_URL, params := [("q", "New York"), ("appid", "x"), ("units", "imperial")],
           timeoutSec := 10 }] ∧
    (main none (some "x") ["New", "York"] (some "imperial") (.transportError "boom")).requests
      = [{ url := BASE_URL, params := [("q", "New York"), ("appid", "x"), ("units", "imperial")],
           timeoutSec := 10 }] :=
  ⟨(spec_c9 "x" (by decide)).1 "New York" "imperial" (.transportError "boom"),
   (spec_c9 "x" (by decide)).2.2.2 "New" ["York"] (some "imperial") "imperial"
      (.transportError "boom") rfl⟩

/-- C3 counterexample: the body `{"weather": []}` is a JSON object, yet
`pretty_render` raises (line 59 indexes `[0]` into the empty list). -/
theorem spec_c3_cex :
    pretty_render (Json.obj [("weather", Json.arr [])]) "metric" = RenderResult.raised := rfl

/-- C3 (amended): for every combination of present and absent fields, with
present fields well-typed (string description, in-range integer timestamps
and offset) rendering completes without raising, and each absent field is
individually defaulted to its placeholder. A present but malformed field
(such as an empty weather array) can still raise. -/
theorem spec_c3 (n c : Option Json) (d : Option String) (t f h w : Option Json)
    (tzo dtv sr ss : Option Int) (units : String)
    (hdt : inRange (dtv.getD 0 + tzo.getD 0))
    (hsr : ∀ v, sr = some v → inRange (v + tzo.getD 0))
    (hss : ∀ v, ss = some v → inRange (v + tzo.getD 0)) :
    ∃ o, pretty_render (mkBody n c d t f h w tzo dtv sr ss) units = RenderResult.output o ∧
      (n = none → o.headerTitle = " Weather — Unknown, " ++ pyStr (c.getD (.s "")) ++ " ") ∧
      (d = none → o.condition = "N/A") ∧
      (t = none → f = none → o.rows.get? 0 = some ("Temperature",
        "N/A " ++ tempUnitOf units ++ " (Feels like " ++ "N/A" ++ tempUnitOf units ++ ")")) ∧
      (h = none → o.rows.get? 1 = some ("Humidity", "N/A%")) ∧
      (w = none → o.rows.get? 2 = some ("Wind Speed", "N/A " ++ windSuffixOf units)) ∧
      (sr = none → o.rows.get? 3 = some ("Sunrise", "N/A")) ∧
      (ss = none → o.rows.get? 4 = some ("Sunset", "N/A")) := by
  refine ⟨mkOutput n c d t f h w tzo dtv sr ss units,
    pretty_render_mkBody n c d t f h w tzo dtv sr ss units hdt hsr hss,
    fun hn => ?_, fun hd => ?_, fun ht hf => ?_, fun hh => ?_, fun hw => ?_,
    fun hsr0 => ?_, fun hss0 => ?_⟩
  · subst hn; rfl
  · subst hd; rfl
  · subst ht; subst hf; rfl
  · subst hh; rfl
  · subst hw; rfl
  · subst hsr0; rfl
  · subst hss0; rfl

/-- C3 witness: the all-absent body renders with every placeholder. -/
theorem spec_c3_witness :
    ∃ o, pretty_render (mkBody none none none none none none none none none none none)
        "metric" = RenderResult.output o ∧
      (none = (none : Option Json) → o.headerTitle
        = " Weather — Unknown, " ++ pyStr ((none : Option Json).getD (.s "")) ++ " ") ∧
      (none = (none : Option String) → o.condition = "N/A") ∧
      (none = (none : Option Json) → none = (none : Option Json) → o.rows.get? 0
        = some ("Temperature",
          "N/A " ++ tempUnitOf "metric" ++ " (Feels like " ++ "N/A" ++ tempUnitOf "metric" ++ ")")) ∧
      (none = (none : Option Json) → o.rows.get? 1 = some ("Humidity", "N/A%")) ∧
      (none = (none : Option Json) → o.rows.get? 2
        = some ("Wind Speed", "N/A " ++ windSuffixOf "metric")) ∧
      (none = (none : Option Int) → o.rows.get? 3 = some ("Sunrise", "N/A")) ∧
      (none = (none : Option Int) → o.rows.get? 4 = some ("Sunset", "N/A")) :=
  spec_c3 none none none none none none none none none none none "metric" (by decide)
    (fun v hv => Option.noConfusion hv) (fun v hv => Option.noConfusion hv)

/-- C5 counterexample: a body with no "dt" field renders the observation
time as 1970-01-01 00:00 (the code defaults `dt` to the timestamp 0, not to
`None`), not as the "N/A" placeholder the claim requires. -/
theorem spec_c5_cex :
    headerTimeOf (pretty_render (Json.obj [("name", Json.s "X")]) "metric")
      = some " Local time (approx): 1970-01-01 00:00 " ∧
    (" Local time (approx): 1970-01-01 00:00 " : String) ≠ " Local time (approx): N/A " :=
  ⟨rfl, by decide⟩

/-- C5 (amended): `format_time` on a `None` timestamp is the fixed
placeholder for every offset, and a body missing sys.sunrise or sys.sunset
renders those rows as the placeholder rather than raising; the observation
time, however, is defaulted to timestamp 0, not to the placeholder. -/
theorem spec_c5 :
    (∀ tz : Json, format_time Json.null tz = Except.ok "N/A") ∧
    (∀ (n c : Option Json) (d : Option String) (t f h w : Option Json) (tzo dtv : Option Int)
      (units : String), inRange (dtv.getD 0 + tzo.getD 0) →
      ∃ o, pretty_render (mkBody n c d t f h w tzo dtv none none) units
          = RenderResult.output o ∧
        o.rows.get? 3 = some ("Sunrise", "N/A") ∧ o.rows.get? 4 = some ("Sunset", "N/A")) := by
  refine ⟨fun tz => rfl, fun n c d t f h w tzo dtv units hdt =>
    ⟨mkOutput n c d t f h w tzo dtv none none units,
     pretty_render_mkBody n c d t f h w tzo dtv none none units hdt
       (fun v hv => Option.noConfusion hv) (fun v hv => Option.noConfusion hv), rfl, rfl⟩⟩

/-- C5 witness: placeholder formatting at offset +05:30, and a rendered
body missing both sunrise and sunset. -/
theorem spec_c5_witness :
    format_time Json.null (Json.i 19800) = Except.ok "N/A" ∧
    ∃ o, pretty_render (mkBody none none none none none none none (some 19800)
        (some 1700000000) none none) "metric" = RenderResult.output o ∧
      o.rows.get? 3 = some ("Sunrise", "N/A") ∧ o.rows.get? 4 = some ("Sunset", "N/A") :=
  ⟨spec_c5.1 (Json.i 19800),
   spec_c5.2 none none none none none none none (some 19800) (some 1700000000) "metric"
     (by decide)⟩

/-- C6: the wind-speed value is suffixed "mph" exactly when the unit mode
is "imperial", and "m/s" for every other unit mode. -/
theorem spec_c6 (units : String) (w : Json) (n c : Option Json) (d : Option String)
    (t f h : Option Json) (tzo dtv sr ss : Option Int)
    (hdt : inRange (dtv.getD 0 + tzo.getD 0))
    (hsr : ∀ v, sr = some v → inRange (v + tzo.getD 0))
    (hss : ∀ v, ss = some v → inRange (v + tzo.getD 0)) :
    ∃ o v, pretty_render (mkBody n c d t f h (some w) tzo dtv sr ss) units
        = RenderResult.output o ∧
      o.rows.get? 2 = some ("Wind Speed", v) ∧
      (v = pyStr w ++ " " ++ "mph" ↔ units = "imperial") ∧
      (units ≠ "imperial" → v = pyStr w ++ " " ++ "m/s") := by
  refine ⟨mkOutput n c d t f h (some w) tzo dtv sr ss units,
    pyStr w ++ " " ++ windSuffixOf units,
    pretty_render_mkBody n c d t f h (some w) tzo dtv sr ss units hdt hsr hss, rfl,
    ⟨fun hv => ?_, fun hu => ?_⟩, fun hu => ?_⟩
  · by_contra hu
    have hws : windSuffixOf units = "m/s" := by simp [windSuffixOf, hu]
    rw [hws] at hv
    exact absurd (string_append_left_cancel hv) (by decide)
  · subst hu; rfl
  · have hws : windSuffixOf units = "m/s" := by simp [windSuffixOf, hu]
    rw [hws]

/-- C6 witness: a metric render whose wind row carries the "m/s" suffix and
not "mph". -/
theorem spec_c6_witness :
    ∃ o v, pretty_render (mkBody none none none none none none (some (Json.i 4))
        none none none none) "metric" = RenderResult.output o ∧
      o.rows.get? 2 = some ("Wind Speed", v) ∧
      (v = pyStr (Json.i 4) ++ " " ++ "mph" ↔ "metric" = "imperial") ∧
      ("metric" ≠ "imperial" → v = pyStr (Json.i 4) ++ " " ++ "m/s") :=
  spec_c6 "metric" (Json.i 4) none none none none none none none none none none (by decide)
    (fun v hv => Option.noConfusion hv) (fun v hv => Option.noConfusion hv)

/-- C7: with all fields present, the rendered rows carry the exact
temperature, feels-like, humidity and wind values with the
unit-mode-dependent suffixes: °C for metric, °F for imperial, K otherwise
for temperatures, "%" for humidity, and mph/m-per-s for wind. -/
theorem spec_c7 (units nm ctry dsc : String) (t f h w dtv tzv sr ss : Int)
    (hdt : inRange (dtv + tzv)) (hsr : inRange (sr + tzv)) (hss : inRange (ss + tzv)) :
    ∃ o, pretty_render (mkBody (some (Json.s nm)) (some (Json.s ctry)) (some dsc)
        (some (Json.i t)) (some (Json.i f)) (some (Json.i h)) (some (Json.i w))
        (some tzv) (some dtv) (some sr) (some ss)) units = RenderResult.output o ∧
      o.rows.get? 0 = some ("Temperature", toString t ++ " " ++ tempUnitOf units
        ++ " (Feels like " ++ toString f ++ tempUnitOf units ++ ")") ∧
      o.rows.get? 1 = some ("Humidity", toString h ++ "%") ∧
      o.rows.get? 2 = some ("Wind Speed", toString w ++ " " ++ windSuffixOf units) ∧
      (units = "metric" → tempUnitOf units = "°C") ∧
      (units = "imperial" → tempUnitOf units = "°F") ∧
      (units ≠ "metric" → units ≠ "imperial" → tempUnitOf units = "K") ∧
      (units = "imperial" → windSuffixOf units = "mph") ∧
      (units ≠ "imperial" → windSuffixOf units = "m/s") := by
  refine ⟨mkOutput (some (Json.s nm)) (some (Json.s ctry)) (some dsc)
      (some (Json.i t)) (some (Json.i f)) (some (Json.i h)) (some (Json.i w))
      (some tzv) (some dtv) (some sr) (some ss) units,
    pretty_render_mkBody (some (Json.s nm)) (some (Json.s ctry)) (some dsc)
      (some (Json.i t)) (some (Json.i f)) (some (Json.i h)) (some (Json.i w))
      (some tzv) (some dtv) (some sr) (some ss) units hdt
      (fun v hv => Option.some.inj hv ▸ hsr) (fun v hv => Option.some.inj hv ▸ hss),
    rfl, rfl, rfl, fun hm => ?_, fun hi => ?_, fun hm hi => ?_, fun hi => ?_, fun hi => ?_⟩
  · subst hm; rfl
  · subst hi; rfl
  · simp [tempUnitOf, hm, hi]
  · subst hi; rfl
  · simp [windSuffixOf, hi]

/-- C7 witness: a fully populated imperial observation. -/
theorem spec_c7_witness :
    ∃ o, pretty_render (mkBody (some (Json.s "B")) (some (Json.s "IN")) (some "clear sky")
        (some (Json.i 30)) (some (Json.i 32)) (some (Json.i 40)) (some (Json.i 7))
        (some 0) (some 0) (some 0) (some 0)) "imperial" = RenderResult.output o ∧
      o.rows.get? 0 = some ("Temperature", toString (30 : Int) ++ " " ++ tempUnitOf "imperial"
        ++ " (Feels like " ++ toString (32 : Int) ++ tempUnitOf "imperial" ++ ")") ∧
      o.rows.get? 1 = some ("Humidity", toString (40 : Int) ++ "%") ∧
      o.rows.get? 2 = some ("Wind Speed", toString (7 : Int) ++ " " ++ windSuffixOf "imperial") ∧
      ("imperial" = "metric" → tempUnitOf "imperial" = "°C") ∧
      ("imperial" = "imperial" → tempUnitOf "imperial" = "°F") ∧
      ("imperial" ≠ "metric" → "imperial" ≠ "imperial" → tempUnitOf "imperial" = "K") ∧
      ("imperial" = "imperial" → windSuffixOf "imperial" = "mph") ∧
      ("imperial" ≠ "imperial" → windSuffixOf "imperial" = "m/s") :=
  spec_c7 "imperial" "B" "IN" "clear sky" 30 32 40 7 0 0 0 0 (by decide) (by decide) (by decide)

end WeatherCli
